import Mathlib

/-!
A shallow embedding of `peewee_migrate/migrator.py` (repository
`spumer/peewee_migrate2`): the dialect-specific schema migrators, the
operation queue (`Migration` / `MigrateOperation`) and the public
`Migrator` API, together with the behaviour of the third-party helpers
from `peewee` / `playhouse.migrate` that the module calls
(`make_index_name`, `Model.index`, `Metadata.combined`, the `@operation`
decorator).  All definitions follow the Python source; theorems at the
end settle the specification claims against them.
-/

namespace PeeweeMigrate

/-- Python exceptions that the embedded code can raise. -/
inductive PyErr
  /-- `TypeError`, e.g. a call missing a required positional argument. -/
  | typeError
  /-- `NotImplementedError` (also used by the source with a message,
  e.g. `NotImplementedError('Index not found in Meta')`). -/
  | notImplementedError
  /-- a failed `assert` statement. -/
  | assertionError
  /-- `KeyError` from a failed dict lookup such as `meta.combined[v]`. -/
  | keyError
  /-- `NameError` from referencing an undefined variable. -/
  | nameError
  /-- `ValueError`, raised by `playhouse.migrate.SchemaMigrator.from_database`
  for an unsupported database class. -/
  | valueError
deriving DecidableEq, Repr

/-- The concrete `SchemaMigrator` subclass selected for a database: the
source defines `PostgresqlMigrator`, `SqliteMigrator`, `MySQLMigrator`
and the generic base `SchemaMigrator`. -/
inductive Dialect
  | postgresql
  | sqlite
  | mysql
  | generic
deriving DecidableEq, Repr

/-- The relation data of a `pw.ForeignKeyField`: target table, target
field, and the `on_delete` / `on_update` policies (`""` models an unset
policy, Python `None`). -/
structure FkInfo where
  rel_table : String
  rel_field : String
  on_delete : String
  on_update : String
deriving DecidableEq, Repr

/-- A peewee field as the migrator observes it: `name`, `column_name`,
`null`, `unique`, `index`, the foreign-key data when the field is a
`pw.ForeignKeyField`, and its declared type (`field_type` only serves to
distinguish fields). -/
structure Field where
  name : String
  column_name : String
  null : Bool
  unique : Bool
  index : Bool
  fk : Option FkInfo
  field_type : String
deriving DecidableEq, Repr

/-- `isinstance(field, pw.ForeignKeyField)`. -/
def Field.is_fk (f : Field) : Bool := f.fk.isSome

/-- DDL statements produced by the dialect adapters.  Each constructor
stands for one emitted statement (or, for `sqliteRebuildColumn`, the
table-rebuild sequence `SqliteMigrator._update_column` performs). -/
inductive Stmt
  /-- `SET search_path TO <schema>` from `PostgresqlMigrator.select_schema`. -/
  | setSearchPath (schema : String)
  /-- base `SchemaMigrator.alter_change_column`: `ALTER TABLE t ALTER COLUMN <ddl>`. -/
  | alterColumn (table column : String) (field : Field)
  /-- `MySQLMigrator.alter_change_column`: `ALTER TABLE t MODIFY COLUMN <ddl>`. -/
  | modifyColumn (table column : String) (field : Field)
  /-- `PostgresqlMigrator.alter_change_column`: the base statement with a
  `TYPE` keyword inserted before the type. -/
  | alterColumnType (table column : String) (field : Field)
  /-- `SqliteMigrator.alter_change_column`: full table rebuild via
  `_update_column`. -/
  | sqliteRebuildColumn (table column : String) (field : Field)
  /-- `ALTER TABLE t ALTER COLUMN c SET NOT NULL` (playhouse `add_not_null`). -/
  | addNotNull (table column : String)
  /-- the closure `lambda: model.drop_table(cascade=...)`. -/
  | dropTable (table : String) (cascade : Bool)
  /-- `model.create_table()`. -/
  | createTable (table : String)
  /-- playhouse `drop_index(table, index_name)`. -/
  | dropIndexStmt (table indexName : String)
  /-- playhouse `drop_column(table, column, cascade=...)`. -/
  | dropColumnStmt (table column : String) (cascade : Bool)
  /-- playhouse `rename_column(table, old, new)`. -/
  | renameColumnStmt (table oldName newName : String)
  /-- playhouse `drop_foreign_key_constraint(table, column)`. -/
  | dropForeignKeyStmt (table column : String)
  /-- playhouse `add_foreign_key_constraint(...)`. -/
  | addForeignKeyStmt (table column relTable relField onDelete onUpdate : String)
  /-- playhouse `add_column(table, column, field)`. -/
  | addColumnStmt (table column : String) (field : Field)
  /-- playhouse `add_index(table, columns, unique)`. -/
  | addIndexStmt (table : String) (columns : List String) (unique : Bool)
  /-- raw SQL from `SchemaMigrator.sql`. -/
  | rawSql (sql : String)
deriving DecidableEq, Repr

/-! ### Dialect adapter methods (`SchemaMigrator` and its subclasses) -/

/-- `alter_change_column`, resolved by Python's MRO: the base class emits
`ALTER COLUMN`, `MySQLMigrator` overrides with `MODIFY COLUMN`,
`PostgresqlMigrator` inserts a `TYPE` keyword, and `SqliteMigrator`
rebuilds the table via `_update_column`.  (The base implementation
temporarily sets `field.null = True` while rendering the DDL and
restores it afterwards, so the field is unchanged.) -/
def alter_change_column (d : Dialect) (table column : String) (field : Field) : Stmt :=
  match d with
  | .generic => .alterColumn table column field
  | .mysql => .modifyColumn table column field
  | .postgresql => .alterColumnType table column field
  | .sqlite => .sqliteRebuildColumn table column field

/-- `SchemaMigrator.change_column` (migrator.py lines 42-48), inherited by
every dialect subclass: build `operations = [self.alter_change_column(...)]`
and, when the target field is not nullable, extend with
`self.add_not_null(table, column_name)`. -/
def change_column (d : Dialect) (table column_name : String) (field : Field) : List Stmt :=
  let operations := [alter_change_column d table column_name field]
  if !field.null then operations ++ [Stmt.addNotNull table column_name]
  else operations

/-- `drop_table`, resolved by MRO: `SqliteMigrator.drop_table`
(migrator.py lines 104-106) always builds
`lambda: model.drop_table(cascade=False)`; every other migrator uses the
base definition (lines 39-40), `lambda: model.drop_table(cascade=cascade)`. -/
def drop_table (d : Dialect) (table : String) (cascade : Bool) : Stmt :=
  match d with
  | .sqlite => .dropTable table false
  | _ => .dropTable table cascade

/-- `select_schema`, resolved by MRO, as observed when the queued
operation is eventually executed: `PostgresqlMigrator.select_schema`
(migrator.py lines 87-90) returns `self.set_search_path(schema)`, i.e. a
`SET search_path TO <schema>` statement; the base definition (lines
34-37), inherited by the sqlite, mysql and generic migrators, raises
`NotImplementedError()`.  (The `@operation` decorator defers the call,
so the raise happens when the operation runs, not when it is queued.) -/
def select_schema (d : Dialect) (schema : String) : Except PyErr Stmt :=
  match d with
  | .postgresql => .ok (.setSearchPath schema)
  | _ => .error .notImplementedError

/-! ### Index naming (`playhouse.migrate.make_index_name` and peewee's
`ModelIndex` auto-generated names) -/

/-- Deterministic stand-in for the md5 hex digest both naming helpers use
when a name exceeds 64 characters.  Only its determinism is relevant to
any claim (no claim input produces a name that long), so the digest is
modelled as a fixed computable function of the string. -/
def digest7 (s : String) : String :=
  toString (s.foldl (fun a c => (a * 131 + c.toNat) % 99999989) 7)

/-- `playhouse.migrate.make_index_name(table_name, columns)`:
`'_'.join((table_name,) + tuple(columns))`, truncated to a 56-character
prefix plus `_` plus 7 digest characters when longer than 64. -/
def make_index_name (table_name : String) (columns : List String) : String :=
  let index_name := String.intercalate "_" (table_name :: columns)
  if index_name.length > 64 then
    (index_name.take 56) ++ "_" ++ digest7 index_name
  else index_name

/-- peewee's `_truncate_constraint_name` (maxlen 64): same truncation
shape as `make_index_name`. -/
def truncate_constraint_name (constraint : String) : String :=
  if constraint.length > 64 then
    (constraint.take 56) ++ "_" ++ digest7 constraint
  else constraint

/-- Python's `\w` character class (ASCII fragment): letters, digits and
underscore. -/
def isWordChar (c : Char) : Bool :=
  c.isAlphanum || c = '_'

/-- peewee `ModelIndex._generate_name_from_fields` for string column
references: join the column names with `_`, strip non-word characters,
prefix the table name, and truncate. -/
def generate_index_name (table_name : String) (columns : List String) : String :=
  let clean := String.mk (((String.intercalate "_" columns).toList).filter isWordChar)
  truncate_constraint_name (table_name ++ "_" ++ clean)

/-! ### Model metadata -/

/-- An entry of `model._meta.indexes`: either a `pw.ModelIndex` object
(created with an explicit name) or the declarative tuple form
`((field_or_column, ...), unique)` allowed in a model's `Meta.indexes`. -/
inductive MetaIndex
  /-- a `pw.ModelIndex` held in `meta.indexes`, with its `_name`,
  its column expressions and its unique flag. -/
  | modelIndex (name : String) (columns : List String) (unique : Bool)
  /-- the tuple form `((parts...), unique)`. -/
  | tupleIndex (parts : List String) (unique : Bool)
deriving DecidableEq, Repr

/-- The slice of a peewee model (class plus `_meta`) that the migrator
reads and mutates: the table name, the ordered field mapping
`meta.fields`, and `meta.indexes`. -/
structure PModel where
  table_name : String
  fields : List Field
  indexes : List MetaIndex
deriving DecidableEq, Repr

/-- `meta.combined[key]`: peewee's combined lookup maps both field names
and column names to the field object; a missing key raises `KeyError`. -/
def PModel.combined (m : PModel) (key : String) : Option Field :=
  match m.fields.find? (fun f => f.name = key) with
  | some f => some f
  | none => m.fields.find? (fun f => f.column_name = key)

/-- `[meta.combined[v].column_name for v in field_or_columns]` — the
column-resolution comprehension shared by `AddIndex._resolve_columns`
and `Migrator.drop_index._to_columns`; a name absent from `combined`
raises `KeyError`. -/
def resolve_columns (m : PModel) (field_or_columns : List String) :
    Except PyErr (List String) :=
  match field_or_columns with
  | [] => .ok []
  | v :: rest =>
    match m.combined v with
    | none => .error .keyError
    | some f => do
      let tail ← resolve_columns m rest
      .ok (f.column_name :: tail)

/-- `meta.add_field(name, field)`: binds the field under `name` (peewee
sets `field.name = name` and defaults `column_name` to the name when the
field was declared without one) and replaces any existing field of that
name in `meta.fields`. -/
def bind_field (name : String) (field : Field) : Field :=
  { field with
    name := name,
    column_name := if field.column_name = "" then name else field.column_name }

/-- `meta.add_field` on the model: remove any previous field called
`name`, then append the bound field. -/
def PModel.add_field (m : PModel) (name : String) (field : Field) : PModel :=
  { m with fields :=
      (m.fields.filter (fun f => f.name ≠ name)) ++ [bind_field name field] }

/-- `Migrator.__del_field__` state effect on `meta.fields`: the field is
removed from the model (`meta.remove_field` plus `delattr`; the extra
foreign-key accessor bookkeeping touches only class attributes outside
`meta.fields`). -/
def del_field (m : PModel) (field : Field) : PModel :=
  { m with fields := m.fields.filter (fun f => f.name ≠ field.name) }

/-! ### The operation queue -/

/-- A `playhouse.migrate.Operation` descriptor as the `Migrator` methods
build them (the `@operation` decorator packs the method name and
arguments; execution is deferred to `Operation.run`). -/
inductive QOp
  | selectSchema (schema : String)
  | dropIndex (table indexName : String)
  | dropColumn (table column : String) (cascade : Bool)
  | changeColumn (table column : String) (field : Field)
  | renameColumn (table oldName newName : String)
  | dropForeignKey (table column : String)
  | addForeignKey (table column relTable relField onDelete onUpdate : String)
  | addColumn (table column : String) (field : Field)
  | addNotNullOp (table column : String)
  | sqlOp (sql : String)
deriving DecidableEq, Repr

/-- An element of `Migration.ops`: `Migration.append` wraps a playhouse
`Operation` in `PlayhouseOperation` and stores `MigrateOperation`
instances (`CreateTable`, `AddIndex`) as they are. -/
inductive MigrateOp
  /-- `PlayhouseOperation(op)`. -/
  | playhouse (op : QOp)
  /-- `CreateTable(model)`. -/
  | createTable (model : PModel)
  /-- `AddIndex(model_index)` built by `AddIndex.from_model`: the
  `pw.ModelIndex` carries the table, the derived name, the resolved
  columns and the options (`unique`). -/
  | addIndex (table indexName : String) (columns : List String) (unique : Bool)
deriving DecidableEq, Repr

/-- `Operation.run` for the playhouse operations the module queues,
mapped to the statements they execute on the given dialect.
`select_schema` is the only one whose body can raise
(`NotImplementedError` outside postgresql); `change_column` expands to
the statement list of `SchemaMigrator.change_column`. -/
def QOp.run (d : Dialect) : QOp → Except PyErr (List Stmt)
  | .selectSchema s => do
    let stmt ← select_schema d s
    .ok [stmt]
  | .dropIndex t n => .ok [.dropIndexStmt t n]
  | .dropColumn t c casc => .ok [.dropColumnStmt t c casc]
  | .changeColumn t c f => .ok (change_column d t c f)
  | .renameColumn t o n => .ok [.renameColumnStmt t o n]
  | .dropForeignKey t c => .ok [.dropForeignKeyStmt t c]
  | .addForeignKey t c rt rf od ou => .ok [.addForeignKeyStmt t c rt rf od ou]
  | .addColumn t c f => .ok [.addColumnStmt t c f]
  | .addNotNullOp t c => .ok [.addNotNull t c]
  | .sqlOp s => .ok [.rawSql s]

/-! ### `Migration` and `Migrator.run` -/

/-- `migrator.orm[key] = model`: dict assignment, replacing any previous
binding of the key. -/
def orm_insert (orm : List (String × PModel)) (key : String) (m : PModel) :
    List (String × PModel) :=
  (orm.filter (fun p => p.1 ≠ key)) ++ [(key, m)]

/-- The `state_forwards` methods as *defined* on each operation class,
i.e. as they would behave when called with the `migrator` argument their
signatures require: `CreateTable.state_forwards` registers the model
under its table name in `migrator.orm` (and points its meta at the
database); `PlayhouseOperation` and `AddIndex` do not override the base
`MigrateOperation.state_forwards`, whose body is
`raise NotImplementedError`. -/
def MigrateOp.state_forwards : MigrateOp → List (String × PModel) →
    Except PyErr (List (String × PModel))
  | .createTable m, orm => .ok (orm_insert orm m.table_name m)
  | .playhouse _, _ => .error .notImplementedError
  | .addIndex _ _ _ _, _ => .error .notImplementedError

/-- The call `op.state_forwards()` made by `Migration.apply`
(migrator.py line 207): every `state_forwards` definition in the module
declares a required positional parameter `migrator`
(`MigrateOperation.state_forwards(self, migrator)` at line 128,
`CreateTable.state_forwards(self, migrator)` at line 181), so the
zero-argument call raises
`TypeError: state_forwards() missing 1 required positional argument`
for every operation class, before any method body runs. -/
def state_forwards_zero_arg_call (_op : MigrateOp) : Except PyErr Unit :=
  .error .typeError

/-- `database_forwards` per operation class: `CreateTable` runs
`self.model.create_table()`; `PlayhouseOperation` checks the operation's
migrator and runs it (`self.op.run()`); `AddIndex.database_forwards`
(migrator.py line 174) references the undefined names `model`,
`columns_` and `unique`, so executing it raises `NameError`. -/
def MigrateOp.database_forwards (d : Dialect) : MigrateOp → Except PyErr (List Stmt)
  | .createTable m => .ok [.createTable m.table_name]
  | .playhouse q => q.run d
  | .addIndex _ _ _ _ => .error .nameError

/-- `Migration.apply` (migrator.py lines 205-208) as written: iterate
`self.ops` in FIFO order and, for each operation, evaluate
`op.state_forwards()` — the zero-argument call, which raises `TypeError`
(see `state_forwards_zero_arg_call`) — and then
`op.database_forwards(self.schema_migrator, None, None)`.  The result
collects the statements the database steps would execute. -/
def Migration.apply (d : Dialect) :
    List MigrateOp → Except PyErr (List Stmt)
  | [] => .ok []
  | op :: rest => do
    let _ ← state_forwards_zero_arg_call op
    let stmts ← op.database_forwards d
    let more ← Migration.apply d rest
    .ok (stmts ++ more)

/-- `Migrator.clean` (migrator.py lines 245-247): its body is
`raise NotImplementedError  # FIXME: what actually we want to do here?`. -/
def Migrator.clean : Except PyErr Unit := .error .notImplementedError

/-- `Migrator.run` (migrator.py lines 232-235): `self.ops.apply()`
followed by `self.clean()`. -/
def Migrator.run (d : Dialect) (ops : List MigrateOp) : Except PyErr (List Stmt) := do
  let stmts ← Migration.apply d ops
  let _ ← Migrator.clean
  .ok stmts

/-! ### `Migrator.__init__` -/

/-- The database objects relevant to dialect dispatch: instances of
`PostgresqlDatabase`, `SqliteDatabase`, `MySQLDatabase`, or any other
database class. -/
inductive DatabaseObj
  | postgresql
  | sqlite
  | mysql
  | other
deriving DecidableEq, Repr

/-- `playhouse.migrate.SchemaMigrator.from_database`: dispatches on the
database class to playhouse's own migrator subclasses and raises
`ValueError('Unsupported database: ...')` for anything else. -/
def playhouse_from_database : DatabaseObj → Except PyErr Dialect
  | .postgresql => .ok .postgresql
  | .mysql => .ok .mysql
  | .sqlite => .ok .sqlite
  | .other => .error .valueError

/-- `SchemaMigrator.from_database` (migrator.py lines 23-32): pick the
dialect subclass by the database's class, falling back to the playhouse
base classmethod. -/
def from_database : DatabaseObj → Except PyErr Dialect
  | .postgresql => .ok .postgresql
  | .sqlite => .ok .sqlite
  | .mysql => .ok .mysql
  | .other => playhouse_from_database .other

/-- The `database` argument accepted by `Migrator.__init__`: a database
object, or a `pw.Proxy` whose `.obj` is the database object. -/
inductive DbArg
  | raw (db : DatabaseObj)
  | proxy (obj : DatabaseObj)
deriving DecidableEq, Repr

/-- The state a freshly constructed `Migrator` holds: the bound database
object, the selected dialect migrator, the schema, the `orm` registry
and the operation queue of its `Migration`. -/
structure MigratorState where
  database : DatabaseObj
  dialect : Dialect
  schema : Option String
  orm : List (String × PModel)
  queue : List MigrateOp
deriving DecidableEq, Repr

/-- `Migrator.__init__` (migrator.py lines 215-226): when the argument is
a `pw.Proxy`, replace it by `database.obj`; select the migrator via
`SchemaMigrator.from_database(database)`; store the database, the
schema, an empty `orm` dict and a fresh `Migration`, whose constructor
(lines 190-195) appends a deferred `select_schema(schema)` operation
when a schema is given. -/
def Migrator.init (database : DbArg) (schema : Option String) :
    Except PyErr MigratorState :=
  let db := match database with
    | .proxy obj => obj
    | .raw d => d
  match from_database db with
  | .error e => .error e
  | .ok dialect =>
    let queue := match schema with
      | some s => [MigrateOp.playhouse (.selectSchema s)]
      | none => []
    .ok { database := db, dialect, schema, orm := [], queue }

/-! ### `Migrator` public API -/

/-- `Migrator.add_index` (migrator.py lines 381-390) together with
`AddIndex.from_model` (lines 164-171): resolve the field names through
`meta.combined` (`KeyError` on an unknown name), build a `pw.ModelIndex`
named `make_index_name(meta.table_name, columns)` via `model.index(...)`
— peewee's `Model.index` classmethod only constructs the index object,
it does not record it in `model._meta.indexes` — and append the
`AddIndex` operation to the queue.  The model's meta is unchanged. -/
def Migrator.add_index (queue : List MigrateOp) (model : PModel)
    (fields : List String) (unique : Bool) :
    Except PyErr (List MigrateOp × PModel) :=
  match resolve_columns model fields with
  | .error e => .error e
  | .ok columns =>
    let name := make_index_name model.table_name columns
    .ok (queue ++ [.addIndex model.table_name name columns unique], model)

/-- `index._name` for an entry of `model._meta.indexes` as the
`drop_index` search loop computes it: a `pw.ModelIndex` keeps its stored
name; a tuple declaration is first converted via
`model.index(*_to_columns(index_parts), unique=unique)`, whose name
peewee auto-generates from the table name and the resolved column names
(resolution raises `KeyError` on an unknown part). -/
def MetaIndex.search_name (m : PModel) : MetaIndex → Except PyErr String
  | .modelIndex n _ _ => .ok n
  | .tupleIndex parts _ => do
    let cols ← resolve_columns m parts
    .ok (generate_index_name m.table_name cols)

/-- The search loop of `Migrator.drop_index` (migrator.py lines
406-415): the position of the first entry of `meta.indexes` whose name
equals the target, if any. -/
def find_meta_index (m : PModel) (target : String) :
    List MetaIndex → Nat → Except PyErr (Option Nat)
  | [], _ => .ok none
  | idx :: rest, pos => do
    let n ← idx.search_name m
    if n = target then .ok (some pos)
    else find_meta_index m target rest (pos + 1)

/-- Outcome of a `Migrator.drop_index` call: the operation queue and the
model after the call (Python mutates both in place, so the queued
`drop_index` operation persists even when the call then raises), and the
call's result. -/
structure DropIndexResult where
  queue : List MigrateOp
  model : PModel
  result : Except PyErr Unit
deriving Repr

/-- `Migrator.drop_index` (migrator.py lines 392-423): resolve the field
names to column names through `meta.combined`, build the target index
name with `make_index_name`, append the playhouse `drop_index` operation
to the queue, then search `model._meta.indexes` for an entry with the
same name; remove it when found, otherwise raise
`NotImplementedError('Index not found in Meta')`. -/
def Migrator.drop_index (queue : List MigrateOp) (model : PModel)
    (fields : List String) : DropIndexResult :=
  match resolve_columns model fields with
  | .error e => ⟨queue, model, .error e⟩
  | .ok columns_ =>
    let name := make_index_name model.table_name columns_
    let queue := queue ++ [.playhouse (.dropIndex model.table_name name)]
    match find_meta_index model name model.indexes 0 with
    | .error e => ⟨queue, model, .error e⟩
    | .ok none => ⟨queue, model, .error .notImplementedError⟩
    | .ok (some pos) =>
      ⟨queue, { model with indexes := model.indexes.eraseIdx pos }, .ok ()⟩

/-- The body of the `drop_columns` loop (migrator.py lines 332-339) for
one matched field: apply `__del_field__` to the model, queue a
`drop_index` operation for `make_index_name(table, [column])` when the
field is unique, then queue the `drop_column` operation. -/
def drop_columns_step (cascade : Bool) (acc : List MigrateOp × PModel)
    (f : Field) : List MigrateOp × PModel :=
  let m := del_field acc.2 f
  let q :=
    if f.unique then
      acc.1 ++ [.playhouse (.dropIndex m.table_name
        (make_index_name m.table_name [f.column_name]))]
    else acc.1
  (q ++ [.playhouse (.dropColumn m.table_name f.column_name cascade)], m)

/-- `Migrator.drop_columns` (migrator.py lines 327-340): keep only the
fields of `meta.fields` whose name is listed (unknown names simply match
nothing and raise nothing), then run `drop_columns_step` over the
matched fields in meta order. -/
def Migrator.drop_columns (queue : List MigrateOp) (model : PModel)
    (names : List String) (cascade : Bool) : List MigrateOp × PModel :=
  let fields := model.fields.filter (fun f => names.contains f.name)
  fields.foldl (drop_columns_step cascade) (queue, model)

/-- The operations `drop_columns` queues for one matched field: a
`drop_index` of the field's derived unique-index name when the field is
unique, immediately followed by the `drop_column` itself. -/
def per_field_ops (table : String) (cascade : Bool) (f : Field) : List MigrateOp :=
  (if f.unique then
    [.playhouse (.dropIndex table (make_index_name table [f.column_name]))]
  else []) ++ [.playhouse (.dropColumn table f.column_name cascade)]

/-- One iteration of the `change_columns` loop (migrator.py lines
285-321), for the pair `name=field`: look up the old field (defaulting
to the new field itself), record its column name, bind the new field
into the model's meta, queue a `drop_foreign_key_constraint` when the
old field was a foreign key, queue a `rename_column` when the column
name changes, and then either queue an `add_foreign_key_constraint`
(foreign-key target, skipping the rest), or queue the `change_column`
operation and, when the uniqueness flag flips, run the
`assert not field.index, "You can't set unique and index together"`
check and call `add_index` / `drop_index` accordingly. -/
def change_one_column (queue : List MigrateOp) (model : PModel)
    (name : String) (field : Field) :
    Except PyErr (List MigrateOp × PModel) :=
  let old_field := (model.fields.find? (fun f => f.name = name)).getD field
  let old_column_name := old_field.column_name
  let fieldB := bind_field name field
  let model := model.add_field name field
  let queue :=
    if old_field.is_fk then
      queue ++ [.playhouse (.dropForeignKey model.table_name old_column_name)]
    else queue
  let queue :=
    if old_column_name ≠ fieldB.column_name then
      queue ++ [.playhouse (.renameColumn model.table_name old_column_name
        fieldB.column_name)]
    else queue
  match fieldB.fk with
  | some info =>
    let od := if info.on_delete = "" then "RESTRICT" else info.on_delete
    let ou := if info.on_update = "" then "RESTRICT" else info.on_update
    .ok (queue ++ [.playhouse (.addForeignKey model.table_name fieldB.column_name
      info.rel_table info.rel_field od ou)], model)
  | none =>
    let queue := queue ++
      [.playhouse (.changeColumn model.table_name fieldB.column_name fieldB)]
    if fieldB.unique = old_field.unique then .ok (queue, model)
    else if fieldB.unique then
      if fieldB.index then .error .assertionError
      else Migrator.add_index queue model [fieldB.name] true
    else
      let res := Migrator.drop_index queue model [fieldB.name]
      match res.result with
      | .error e => .error e
      | .ok _ => .ok (res.queue, res.model)

/-! ### Concrete fixtures, mirroring the repository's test models -/

/-- `Order.number` of the test fixture: a plain `CharField`. -/
def numberField : Field := ⟨"number", "number", false, false, false, none, "VARCHAR"⟩

/-- `Order.uid` of the test fixture: `CharField(unique=True)`. -/
def uidField : Field := ⟨"uid", "uid", false, true, false, none, "VARCHAR"⟩

/-- `Order.customer_id` of the test fixture: a `ForeignKeyField`. -/
def customerFkField : Field :=
  ⟨"customer_id", "customer_id", false, false, false, some ⟨"customer", "id", "", ""⟩, "INT"⟩

/-- The `Order` model of the test fixture. -/
def orderModel : PModel := ⟨"order", [numberField, uidField, customerFkField], []⟩

/-- The `Test` model of `test_add_and_remove_index`: a field with a
custom column name and two indexes declared in `Meta.indexes`. -/
def testModel : PModel :=
  ⟨"test",
    [⟨"one", "not_one", false, false, false, none, "VARCHAR"⟩,
     ⟨"two", "two", false, false, false, none, "INT"⟩,
     ⟨"three", "three", false, false, false, none, "VARCHAR"⟩,
     ⟨"four", "four", false, false, false, none, "VARCHAR"⟩],
    [.tupleIndex ["three", "four"] false, .tupleIndex ["one", "three"] false]⟩

/-- A non-nullable replacement field. -/
def createdAtField : Field :=
  ⟨"created_at", "created_at", false, false, false, none, "TIMESTAMP"⟩

/-- A nullable replacement field. -/
def noteField : Field := ⟨"note", "note", true, false, false, none, "TEXT"⟩

/-- A replacement for `Order.uid` marked both unique and indexed. -/
def uidUniqueIndexedField : Field := ⟨"uid", "uid", false, true, true, none, "INT"⟩

/-- A replacement for `Order.number` marked both unique and indexed. -/
def numberUniqueIndexedField : Field :=
  ⟨"number", "number", false, true, true, none, "VARCHAR"⟩

/-! ### Helper lemmas -/

/-- Folding `drop_columns_step` over a field list appends exactly the
`per_field_ops` of each field, in order, to the queue. -/
theorem drop_columns_fold (cascade : Bool) (fs : List Field)
    (queue : List MigrateOp) (model : PModel) :
    (fs.foldl (drop_columns_step cascade) (queue, model)).1 =
      queue ++ fs.flatMap (per_field_ops model.table_name cascade) := by
  induction fs generalizing queue model with
  | nil => simp
  | cons f rest ih =>
    have hstep : drop_columns_step cascade (queue, model) f =
        (queue ++ per_field_ops model.table_name cascade f, del_field model f) := by
      cases hu : f.unique <;>
        simp [drop_columns_step, per_field_ops, del_field, hu]
    rw [List.foldl_cons, hstep, ih]
    simp [List.flatMap_cons, List.append_assoc, del_field]

/-! ### Claim theorems -/

/-- Claim C1 (status: code_bug).  The claim states that `Migrator.run()`
drains a non-empty queue in FIFO order, applying each operation's state
effect before its database effect.  The code instead raises `TypeError`
at the very first operation: `Migration.apply` calls
`op.state_forwards()` with no argument although every `state_forwards`
definition requires a `migrator` parameter (and the operation classes
`PlayhouseOperation` / `AddIndex` leave `state_forwards` unimplemented
altogether), so no operation is ever processed. -/
theorem migration_apply_first_op_type_error (d : Dialect) (op : MigrateOp)
    (rest : List MigrateOp) :
    Migration.apply d (op :: rest) = .error .typeError ∧
    Migrator.run d (op :: rest) = .error .typeError :=
  ⟨rfl, rfl⟩

/-- Claim C2 (status: code_bug).  The claim states that `run()` on an
empty queue is a no-op that does not raise, and that a successful run
leaves the queue empty.  In the code `Migrator.run` always calls
`Migrator.clean`, whose body is `raise NotImplementedError`, so even the
empty-queue run raises instead of being a no-op. -/
theorem migrator_run_empty_queue_raises (d : Dialect) :
    Migrator.run d [] = .error .notImplementedError := rfl

/-- Claim C3 (status: code_bug).  A `drop_index` whose derived name
matches an index declared in the table's static `Meta.indexes` is found
and removed, but an index previously added with `add_index` is not:
`add_index` leaves `model._meta.indexes` untouched (its `AddIndex`
operation has no state effect), so the subsequent `drop_index` search
fails and raises `NotImplementedError('Index not found in Meta')`,
although the repository's own test `test_add_and_remove_index` expects
the drop to succeed. -/
theorem drop_index_added_imperatively_not_found :
    (Migrator.drop_index [] testModel ["three", "four"]).result = .ok () ∧
    (Migrator.drop_index [] testModel ["three", "four"]).model.indexes =
      [MetaIndex.tupleIndex ["one", "three"] false] ∧
    Migrator.add_index [] testModel ["one"] false =
      .ok ([MigrateOp.addIndex "test" "test_not_one" ["not_one"] false], testModel) ∧
    (Migrator.drop_index [MigrateOp.addIndex "test" "test_not_one" ["not_one"] false]
        testModel ["one"]).result = .error .notImplementedError :=
  ⟨rfl, rfl, rfl, rfl⟩

/-- Claim C4 (status: code_bug).  `add_index` and `drop_index` do derive
the index name through the same pure function
(`make_index_name(table, resolved columns)` — here both compute
`"test_not_one_two"` for fields `one, two`), but the claimed
"the drop succeeds" fails: the added index is never recorded in the
model's meta, so `drop_index` raises
`NotImplementedError('Index not found in Meta')`. -/
theorem add_index_drop_index_same_name :
    Migrator.add_index [] testModel ["one", "two"] false =
      .ok ([MigrateOp.addIndex "test" "test_not_one_two" ["not_one", "two"] false],
        testModel) ∧
    (Migrator.drop_index [] testModel ["one", "two"]).queue =
      [MigrateOp.playhouse (QOp.dropIndex "test" "test_not_one_two")] ∧
    make_index_name "test" ["not_one", "two"] = "test_not_one_two" ∧
    (Migrator.drop_index [] testModel ["one", "two"]).result =
      .error .notImplementedError :=
  ⟨rfl, rfl, rfl, rfl⟩

/-- Claim C5 (status: confirmed).  `change_column` emits the type-change
statement followed by a separate "set not null" statement exactly when
the target field is non-nullable, and only the type-change statement
when it is nullable — on every dialect. -/
theorem change_column_not_null_statements (d : Dialect) (t c : String) (f : Field) :
    (f.null = false →
      change_column d t c f = [alter_change_column d t c f, Stmt.addNotNull t c]) ∧
    (f.null = true → change_column d t c f = [alter_change_column d t c f]) := by
  constructor <;> intro h <;> simp [change_column, h]

/-- Witness for C5 at concrete inputs: a non-nullable and a nullable
target field. -/
theorem change_column_not_null_statements_witness :
    change_column .postgresql "user" "created_at" createdAtField =
      [alter_change_column .postgresql "user" "created_at" createdAtField,
       Stmt.addNotNull "user" "created_at"] ∧
    change_column .sqlite "user" "note" noteField =
      [alter_change_column .sqlite "user" "note" noteField] :=
  ⟨(change_column_not_null_statements .postgresql "user" "created_at" createdAtField).1 rfl,
   (change_column_not_null_statements .sqlite "user" "note" noteField).2 rfl⟩

/-- Claim C6 (status: confirmed).  `drop_columns` ignores names that
match no existing column (nothing is queued for them and no error can be
raised — the result is a total function), and for each matched field the
queued operations are `per_field_ops`: a drop of the derived unique
index immediately before the drop-column when the field is unique. -/
theorem drop_columns_unknown_ignored_unique_index_first
    (queue : List MigrateOp) (model : PModel) (names : List String)
    (cascade : Bool) (n : String) (h : ∀ f ∈ model.fields, f.name ≠ n) :
    (Migrator.drop_columns queue model names cascade).1 =
      queue ++ (model.fields.filter (fun f => names.contains f.name)).flatMap
        (per_field_ops model.table_name cascade) ∧
    Migrator.drop_columns queue model (n :: names) cascade =
      Migrator.drop_columns queue model names cascade := by
  constructor
  · exact drop_columns_fold cascade _ queue model
  · unfold Migrator.drop_columns
    have hfilter : model.fields.filter (fun f => (n :: names).contains f.name) =
        model.fields.filter (fun f => names.contains f.name) := by
      apply List.filter_congr
      intro f hf
      have hne := h f hf
      simp [List.contains_cons, hne]
    rw [hfilter]

/-- Witness for C6: dropping `uid, customer_id` plus the unknown name
`nope` from the `Order` model. -/
theorem drop_columns_unknown_ignored_witness :
    (Migrator.drop_columns [] orderModel ["uid", "customer_id"] true).1 =
      [] ++ (orderModel.fields.filter
          (fun f => ["uid", "customer_id"].contains f.name)).flatMap
        (per_field_ops orderModel.table_name true) ∧
    Migrator.drop_columns [] orderModel ("nope" :: ["uid", "customer_id"]) true =
      Migrator.drop_columns [] orderModel ["uid", "customer_id"] true :=
  drop_columns_unknown_ignored_unique_index_first [] orderModel
    ["uid", "customer_id"] true "nope" (by decide)

/-- Claim C7 (status: confirmed).  `drop_table` on the sqlite migrator
builds `model.drop_table(cascade=False)` whatever the flag says — it
never fails because of the flag — while the default migrator passes the
flag through. -/
theorem drop_table_cascade_handling (t : String) (c : Bool) :
    drop_table .sqlite t c = Stmt.dropTable t false ∧
    drop_table .sqlite t c = drop_table .sqlite t false ∧
    drop_table .generic t c = Stmt.dropTable t c :=
  ⟨rfl, rfl, rfl⟩

/-- Claim C8 (status: confirmed).  `select_schema` on the postgresql
migrator produces the search-path selection statement; on every other
dialect the inherited base definition raises `NotImplementedError`, for
every schema argument. -/
theorem select_schema_postgresql_only (d : Dialect) (s : String)
    (h : d ≠ .postgresql) :
    select_schema .postgresql s = .ok (.setSearchPath s) ∧
    select_schema d s = .error .notImplementedError := by
  refine ⟨rfl, ?_⟩
  cases d
  · exact absurd rfl h
  all_goals rfl

/-- Witness for C8 at the sqlite dialect and a concrete schema. -/
theorem select_schema_postgresql_only_witness :
    select_schema .postgresql "test_schema" = .ok (.setSearchPath "test_schema") ∧
    select_schema .sqlite "test_schema" = .error .notImplementedError :=
  select_schema_postgresql_only .sqlite "test_schema" (by decide)

/-- Counterexample to claim C9 as stated: changing `Order.uid` (already
unique) to a field marked both unique and indexed is *not* rejected —
the call succeeds and queues the change-column operation, because the
`assert not field.index` check is only reached when the uniqueness flag
flips. -/
theorem change_columns_unique_and_index_accepted :
    change_one_column [] orderModel "uid" uidUniqueIndexedField =
      .ok ([MigrateOp.playhouse (QOp.changeColumn "order" "uid" uidUniqueIndexedField)],
        { table_name := "order",
          fields := [numberField, customerFkField, uidUniqueIndexedField],
          indexes := [] }) := rfl

/-- Claim C9 as amended (status: corrected).  A `change_columns` call
whose new field is marked both unique and indexed is rejected with an
assertion error — before any database statement is emitted, since the
call only queues operations — exactly when the uniqueness flag newly
flips on, i.e. the existing field was not unique. -/
theorem change_columns_unique_index_conflict_on_flip
    (queue : List MigrateOp) (model : PModel) (name : String)
    (field old_field : Field)
    (hfind : model.fields.find? (fun f => f.name = name) = some old_field)
    (hold : old_field.unique = false)
    (hu : field.unique = true) (hi : field.index = true)
    (hfk : field.fk = none) :
    change_one_column queue model name field = .error .assertionError := by
  unfold change_one_column
  rw [hfind]
  have hBfk : (bind_field name field).fk = none := by simp [bind_field, hfk]
  have hBu : (bind_field name field).unique = true := by simp [bind_field, hu]
  have hBi : (bind_field name field).index = true := by simp [bind_field, hi]
  simp [hBfk, hBu, hBi, hold]

/-- Witness for the amended C9: `Order.number` is not unique, and the
replacement is unique and indexed, so the call raises the assertion. -/
theorem change_columns_unique_index_conflict_on_flip_witness :
    change_one_column [] orderModel "number" numberUniqueIndexedField =
      .error .assertionError :=
  change_columns_unique_index_conflict_on_flip [] orderModel "number"
    numberUniqueIndexedField numberField rfl rfl rfl rfl rfl

/-- Claim C10 (status: confirmed).  Constructing a `Migrator` with a
`pw.Proxy`-wrapped database binds it to the underlying object: the
construction behaves exactly as with the raw object, the stored
`database` field is the proxied object, and the dialect is selected by
`SchemaMigrator.from_database` on that object. -/
theorem migrator_init_unwraps_proxy (d : DatabaseObj) (schema : Option String)
    (st : MigratorState) (h : Migrator.init (.proxy d) schema = .ok st) :
    Migrator.init (.proxy d) schema = Migrator.init (.raw d) schema ∧
    st.database = d ∧ from_database d = .ok st.dialect := by
  cases d with
  | postgresql => injection h with h'; subst h'; exact ⟨rfl, rfl, rfl⟩
  | sqlite => injection h with h'; subst h'; exact ⟨rfl, rfl, rfl⟩
  | mysql => injection h with h'; subst h'; exact ⟨rfl, rfl, rfl⟩
  | other => exact nomatch h

/-- Witness for C10: a proxied sqlite database with no schema. -/
theorem migrator_init_unwraps_proxy_witness :
    Migrator.init (.proxy .sqlite) none = Migrator.init (.raw .sqlite) none ∧
    MigratorState.database ⟨.sqlite, .sqlite, none, [], []⟩ = .sqlite ∧
    from_database .sqlite =
      .ok (MigratorState.dialect ⟨.sqlite, .sqlite, none, [], []⟩) :=
  migrator_init_unwraps_proxy .sqlite none ⟨.sqlite, .sqlite, none, [], []⟩ rfl

end PeeweeMigrate
